import Mathlib

/-!
Shallow embedding of the task-manager backend (Flask application `app.py`,
persistence layer `database.py`, read-through cache `cache.py`, validators in
`utils/validators.py`).

Modelling conventions:
* SQLite tables become lists of rows inside a `DB` record; `AUTOINCREMENT`
  columns become explicit `next_…_id` counters.
* Timestamps (both `CURRENT_TIMESTAMP` comparisons and `time.time()`) become a
  `Nat` instant `now` passed to every operation that reads the clock.
* `secrets.token_urlsafe(32)` becomes an explicit fresh-token argument.
* Each Flask handler becomes a function from the request data to a
  `HandlerResult`: an outcome (the HTTP-level classification of the response),
  the database after the request, and the ordered list of externally visible
  effects (persisted writes, cache invalidations, broadcast emissions).
-/


/-- Row of the `users` table (`database.py`, `init_db`). -/
structure UserRow where
  id : Int
  email : String
  username : String
  password_hash : String
  role : String
  created_at : Nat
deriving DecidableEq

/-- Row of the `auth_tokens` table. -/
structure TokenRow where
  token : String
  user_id : Int
  expires_at : Nat
deriving DecidableEq

/-- Row of the `tasks` table. -/
structure TaskRow where
  id : Int
  title : String
  description : Option String
  status : String
  priority : String
  due_date : Option String
  author_id : Int
  executor_id : Option Int
  created_at : Nat
  updated_at : Nat
deriving DecidableEq

/-- Row of the `comments` table. -/
structure CommentRow where
  id : Int
  task_id : Int
  author_id : Int
  text : String
deriving DecidableEq

/-- The SQLite database `task_manager.db`. -/
structure DB where
  users : List UserRow
  tasks : List TaskRow
  comments : List CommentRow
  auth_tokens : List TokenRow
  next_task_id : Int
  next_comment_id : Int
deriving DecidableEq

/-- `TOKEN_TTL_MINUTES = 120` (`database.py`). -/
def TOKEN_TTL_MINUTES : Nat := 120

/-- Default of the `expires_in` parameter of `database.refresh_token`
(`refresh_token(old_token, expires_in=3600)`). -/
def REFRESH_EXPIRES_IN_DEFAULT : Nat := 3600

/-- `database.create_auth_token(user_id)`: inserts a token row whose expiry is
`now + TOKEN_TTL_MINUTES` minutes.  The generated `secrets.token_urlsafe(32)`
value is passed in as `tok`. -/
def create_auth_token (db : DB) (user_id : Int) (now : Nat) (tok : String) : DB :=
  { db with auth_tokens := db.auth_tokens ++ [⟨tok, user_id, now + TOKEN_TTL_MINUTES * 60⟩] }

/-- `database.get_user_by_token(token)`: the SQL join returns a row only when
a token row with this value exists, is unexpired (`expires_at > CURRENT_TIMESTAMP`)
and its `user_id` references an existing user. -/
def get_user_by_token (db : DB) (token : String) (now : Nat) : Option UserRow :=
  match db.auth_tokens.find? (fun r => r.token == token && decide (now < r.expires_at)) with
  | none => none
  | some r => db.users.find? (fun u => u.id == r.user_id)

/-- `database.get_user_by_access_token(token)`: joins the token row with its
user; when the row is found but already expired (`_now_utc() > expires_at`) it
is deleted (lazy expiry sweep) and the lookup fails. -/
def get_user_by_access_token (db : DB) (token : String) (now : Nat) :
    Option UserRow × DB :=
  match db.auth_tokens.find? (fun r => r.token == token) with
  | none => (none, db)
  | some r =>
    match db.users.find? (fun u => u.id == r.user_id) with
    | none => (none, db)
    | some u =>
      if r.expires_at < now then
        (none, { db with auth_tokens := db.auth_tokens.filter (fun x => !(x.token == token)) })
      else
        (some u, db)

/-- `database.delete_access_token(token)`: deletes the row, reports whether a
row was removed. -/
def delete_access_token (db : DB) (token : String) : Bool × DB :=
  (db.auth_tokens.any (fun r => r.token == token),
   { db with auth_tokens := db.auth_tokens.filter (fun r => !(r.token == token)) })

/-- `database.refresh_token(old_token, expires_in=3600)`: looks the old token
up requiring `expires_at > CURRENT_TIMESTAMP`; on success deletes it and
inserts a fresh row for the same user expiring `expires_in` seconds from now.
The generated replacement value is passed in as `newTok`. -/
def refresh_token (db : DB) (old_token : String) (now : Nat) (newTok : String)
    (expires_in : Nat := REFRESH_EXPIRES_IN_DEFAULT) : Option (String × DB) :=
  match db.auth_tokens.find? (fun r => r.token == old_token && decide (now < r.expires_at)) with
  | none => none
  | some r =>
    some (newTok,
      { db with auth_tokens :=
          db.auth_tokens.filter (fun x => !(x.token == old_token))
            ++ [⟨newTok, r.user_id, now + expires_in⟩] })

/-- The `token` column is the primary key of `auth_tokens`: at most one row per
token value. -/
abbrev tokensUnique (db : DB) : Prop :=
  db.auth_tokens.Pairwise (fun a b => a.token ≠ b.token)

/-- Concrete witness database used to instantiate the hypothesis-bearing
theorems: one super_admin, one admin, one plain user, one task authored by the
admin, plus one live token per user (all issued at time 0, expiring at 7200). -/
def sampleDB : DB :=
  { users :=
      [ ⟨1, "super@mail.ru", "Супер Админ", "h1", "super_admin", 0⟩
      , ⟨2, "admin@mail.ru", "Администратор", "h2", "admin", 0⟩
      , ⟨3, "ivan@mail.ru", "Иван Петров", "h3", "user", 0⟩ ]
  , tasks :=
      [ ⟨1, "Настроить сервер", some "desc", "в процессе", "высокий", none, 2, some 3, 10, 10⟩ ]
  , comments := [ ⟨1, 1, 3, "Первый комментарий"⟩ ]
  , auth_tokens :=
      [ ⟨"tokS", 1, 7200⟩, ⟨"tokA", 2, 7200⟩, ⟨"tokU", 3, 7200⟩ ]
  , next_task_id := 2
  , next_comment_id := 2 }

/-- `TASK_CACHE_TTL = 300` seconds (`cache.py`). -/
def TASK_CACHE_TTL : Nat := 300

/-- An "enriched" task as produced by the `LEFT JOIN`s of
`database.get_task_by_id` / `database.get_all_tasks`: the task row plus the
resolved author/executor display names. -/
structure TaskView where
  row : TaskRow
  author_name : Option String
  executor_name : Option String
deriving DecidableEq

/-- The join-equivalent enrichment of one task row. -/
def enrichTask (db : DB) (t : TaskRow) : TaskView :=
  ⟨t,
   (db.users.find? (fun u => u.id == t.author_id)).map (fun u => u.username),
   match t.executor_id with
   | none => none
   | some e => (db.users.find? (fun u => u.id == e)).map (fun u => u.username)⟩

/-- `database.get_task_by_id(task_id)`. -/
def get_task_by_id (db : DB) (task_id : Int) : Option TaskView :=
  (db.tasks.find? (fun t => t.id == task_id)).map (enrichTask db)

/-- The value cached for the task list: `{"count": int, "tasks": [...]}`. -/
structure TaskListData where
  count : Nat
  tasks : List TaskView
deriving DecidableEq

/-- The module-level `TASK_LIST_CACHE` dictionary of `cache.py`: a single slot
holding one key, one value and one absolute expiry. -/
structure ListCache where
  key : Option String
  data : Option TaskListData
  expires_at : Nat
deriving DecidableEq

/-- The reset state `{"key": None, "data": None, "expires_at": 0.0}`. -/
def emptyListCache : ListCache := ⟨none, none, 0⟩

/-- `cache.get_cached_task_list(key)`: miss on key mismatch; on key match but
stale entry (`expires_at < now`) the slot is cleared and the call misses;
otherwise the stored data is returned.  The second component is the slot state
after the call. -/
def get_cached_task_list (c : ListCache) (key : String) (now : Nat) :
    Option TaskListData × ListCache :=
  if c.key != some key then (none, c)
  else if c.expires_at < now then (none, emptyListCache)
  else (c.data, c)

/-- `cache.set_cached_task_list(key, data)`: unconditional overwrite of the
single slot with a fresh expiry. -/
def set_cached_task_list (_ : ListCache) (key : String) (data : TaskListData) (now : Nat) :
    ListCache :=
  ⟨some key, some data, now + TASK_CACHE_TTL⟩

/-- `cache.invalidate_task_list_cache()`. -/
def invalidate_task_list_cache (_ : ListCache) : ListCache := emptyListCache

/-- One entry of `TASK_DETAIL_CACHE`: `{"data": ..., "expires_at": ts}`. -/
structure DetailEntry where
  data : TaskView
  expires_at : Nat
deriving DecidableEq

/-- The module-level `TASK_DETAIL_CACHE` dictionary, `task_id -> entry`. -/
abbrev DetailCache := List (Int × DetailEntry)

/-- `cache.get_cached_task_detail(task_id)`: absent key misses; a stale entry
(`expires_at < now`) is popped and the call misses; otherwise the stored data
is returned. -/
def get_cached_task_detail (c : DetailCache) (task_id : Int) (now : Nat) :
    Option TaskView × DetailCache :=
  match c.find? (fun p => p.1 == task_id) with
  | none => (none, c)
  | some p =>
    if p.2.expires_at < now then (none, c.filter (fun q => !(q.1 == task_id)))
    else (some p.2.data, c)

/-- `cache.set_cached_task_detail(task_id, data)`: dictionary assignment. -/
def set_cached_task_detail (c : DetailCache) (task_id : Int) (data : TaskView) (now : Nat) :
    DetailCache :=
  c.filter (fun q => !(q.1 == task_id)) ++ [(task_id, ⟨data, now + TASK_CACHE_TTL⟩)]

/-- `cache.invalidate_task_detail(task_id)`: `dict.pop(task_id, None)`. -/
def invalidate_task_detail (c : DetailCache) (task_id : Int) : DetailCache :=
  c.filter (fun q => !(q.1 == task_id))

/-- Python `str.strip()`: drop whitespace from both ends.  (Defined over the
character list so that it evaluates by kernel reduction.) -/
def strTrim (s : String) : String :=
  ⟨(((s.data.dropWhile Char.isWhitespace).reverse).dropWhile Char.isWhitespace).reverse⟩

/-- Python `str.lower()` (ASCII case folding suffices for the header check). -/
def strToLower (s : String) : String := ⟨s.data.map Char.toLower⟩

/-- Python `str.startswith(pre)`. -/
def strStartsWith (s pre : String) : Bool := s.data.take pre.data.length == pre.data

/-- The first `n` characters removed, Python `s[n:]` on the character level. -/
def strDrop (s : String) (n : Nat) : String := ⟨s.data.drop n⟩

/-- Worker for Python `str.split()` with no separator: split on whitespace
runs, dropping empty pieces. -/
def splitWsAux : List Char → List Char → List String
  | [], acc => if acc.isEmpty then [] else [⟨acc.reverse⟩]
  | c :: cs, acc =>
    if c.isWhitespace then
      if acc.isEmpty then splitWsAux cs [] else ⟨acc.reverse⟩ :: splitWsAux cs []
    else splitWsAux cs (c :: acc)

/-- Worker for Python `str.split("-")`. -/
def splitOnDashAux : List Char → List Char → List String
  | [], acc => [⟨acc.reverse⟩]
  | c :: cs, acc =>
    if c == '-' then ⟨acc.reverse⟩ :: splitOnDashAux cs []
    else splitOnDashAux cs (c :: acc)

/-- Python `s.split("-")`. -/
def splitOnDash (s : String) : List String := splitOnDashAux s.data []

/-- Decimal value of an all-digit string. -/
def digitsToNat (s : String) : Nat := s.data.foldl (fun n c => n * 10 + (c.toNat - 48)) 0

/-- `ALLOWED_STATUSES` (`utils/validators.py`). -/
def ALLOWED_STATUSES : List String := ["к выполнению", "в процессе", "выполнена", "отменена"]

/-- `ALLOWED_PRIORITIES` (`utils/validators.py`). -/
def ALLOWED_PRIORITIES : List String := ["низкий", "средний", "высокий"]

/-- Gregorian leap-year rule, as applied by `datetime`. -/
def isLeapYear (y : Nat) : Bool := (y % 4 == 0 && y % 100 != 0) || (y % 400 == 0)

/-- Number of days of month `m` in year `y`. -/
def daysInMonth (y m : Nat) : Nat :=
  if m == 2 then (if isLeapYear y then 29 else 28)
  else if m == 4 || m == 6 || m == 9 || m == 11 then 30
  else 31

/-- Nonempty all-digit string. -/
def allDigits (s : String) : Bool := !(s == "") && s.data.all Char.isDigit

/-- `datetime.strptime(s, "%Y-%m-%d")` succeeds: three dash-separated digit
groups (year up to 4 digits, month/day up to 2) forming a real calendar date. -/
def strptime_Ymd_ok (s : String) : Bool :=
  match splitOnDash s with
  | [ys, ms, ds] =>
    allDigits ys && allDigits ms && allDigits ds
      && decide (ys.length ≤ 4) && decide (ms.length ≤ 2) && decide (ds.length ≤ 2)
      && (let y := digitsToNat ys; let m := digitsToNat ms; let d := digitsToNat ds
          decide (1 ≤ y) && decide (1 ≤ m) && decide (m ≤ 12)
            && decide (1 ≤ d) && decide (d ≤ daysInMonth y m))
  | _ => false

/-- `validators.validate_task_data(data, require_all)`.  The arguments are the
values `data.get("title")`, `data.get("author_id")`, … — absent keys and JSON
nulls both surface as `none`, matching `dict.get`'s `None`. -/
def validate_task_data (title : Option String) (author_id : Option Int)
    (status priority due_date : Option String) (require_all : Bool) : List String :=
  (if require_all && (match title with | some t => strTrim t == "" | none => true)
   then ["title required"] else [])
  ++ (match title with
      | some t =>
        if t == "" then []
        else (if (strTrim t).length < 3 then ["title too short"] else [])
          ++ (if (strTrim t).length > 255 then ["title too long"] else [])
      | none => [])
  ++ (if require_all && (match author_id with | some a => a == 0 | none => true)
      then ["author_id required"] else [])
  ++ (match status with
      | some s => if !(ALLOWED_STATUSES.contains s) then ["bad status"] else []
      | none => [])
  ++ (match priority with
      | some p => if !(ALLOWED_PRIORITIES.contains p) then ["bad priority"] else []
      | none => [])
  ++ (match due_date with
      | some d => if d == "" then [] else (if !(strptime_Ymd_ok d) then ["bad due_date"] else [])
      | none => [])

/-- A JSON body for the task endpoints.  For each key of interest the outer
`Option` is key presence and the inner `Option` distinguishes JSON `null` from
a value; `extraKeys` lists any other keys (their values are irrelevant to the
handlers). -/
structure TaskBody where
  title : Option (Option String) := none
  description : Option (Option String) := none
  status : Option (Option String) := none
  priority : Option (Option String) := none
  due_date : Option (Option String) := none
  executor_id : Option (Option Int) := none
  author_id : Option (Option Int) := none
  extraKeys : List String := []
deriving DecidableEq

/-- Python `if not data` on the parsed JSON dict. -/
def TaskBody.isEmpty (d : TaskBody) : Bool :=
  d.title.isNone && d.description.isNone && d.status.isNone && d.priority.isNone
    && d.due_date.isNone && d.executor_id.isNone && d.author_id.isNone && d.extraKeys.isEmpty

/-- The keys that survive the allow-list filter of `app.update_task`
(`allowed_fields = [title, description, status, priority, due_date, executor_id]`). -/
structure TaskFields where
  title : Option (Option String) := none
  description : Option (Option String) := none
  status : Option (Option String) := none
  priority : Option (Option String) := none
  due_date : Option (Option String) := none
  executor_id : Option (Option Int) := none
deriving DecidableEq

/-- `{key: value for key, value in data.items() if key in allowed_fields}`. -/
def TaskBody.filteredFields (d : TaskBody) : TaskFields :=
  ⟨d.title, d.description, d.status, d.priority, d.due_date, d.executor_id⟩

/-- Python `if not filtered_data`. -/
def TaskFields.isEmpty (f : TaskFields) : Bool :=
  f.title.isNone && f.description.isNone && f.status.isNone && f.priority.isNone
    && f.due_date.isNone && f.executor_id.isNone

/-- Number of kwargs surviving `field in allowed_fields and value is not None`
inside `database.update_task` — the `SET` items of the generated `UPDATE`. -/
def TaskFields.effectiveCount (f : TaskFields) : Nat :=
  (match f.title with | some (some _) => 1 | _ => 0)
  + (match f.description with | some (some _) => 1 | _ => 0)
  + (match f.status with | some (some _) => 1 | _ => 0)
  + (match f.priority with | some (some _) => 1 | _ => 0)
  + (match f.due_date with | some (some _) => 1 | _ => 0)
  + (match f.executor_id with | some (some _) => 1 | _ => 0)

/-- Application of the generated `UPDATE … SET …, updated_at = now` to one row. -/
def applyTaskFields (f : TaskFields) (t : TaskRow) (now : Nat) : TaskRow :=
  { t with
    title := match f.title with | some (some v) => v | _ => t.title
    description := match f.description with | some (some v) => some v | _ => t.description
    status := match f.status with | some (some v) => v | _ => t.status
    priority := match f.priority with | some (some v) => v | _ => t.priority
    due_date := match f.due_date with | some (some v) => some v | _ => t.due_date
    executor_id := match f.executor_id with | some (some v) => some v | _ => t.executor_id
    updated_at := now }

/-- `database.update_task(task_id, **kwargs)`.  Result: (whether the `UPDATE`
statement ran at all, the function's return value `rowcount > 0`, the
database after the call). -/
def db_update_task (db : DB) (task_id : Int) (f : TaskFields) (now : Nat) :
    Bool × Bool × DB :=
  if f.effectiveCount == 0 then (false, false, db)
  else
    (true, db.tasks.any (fun t => t.id == task_id),
     { db with tasks := db.tasks.map (fun t => if t.id == task_id then applyTaskFields f t now else t) })

/-- `database.create_task(...)`: `INSERT` with fresh `AUTOINCREMENT` id. -/
def db_create_task (db : DB) (title description : String) (author_id executor_id : Int)
    (status priority : String) (due_date : Option String) (now : Nat) : Int × DB :=
  (db.next_task_id,
   { db with
      tasks := db.tasks ++ [⟨db.next_task_id, title, some description, status, priority,
        due_date, author_id, some executor_id, now, now⟩]
      next_task_id := db.next_task_id + 1 })

/-- `DELETE FROM tasks WHERE id = ?` and its `rowcount > 0`. -/
def db_delete_task (db : DB) (task_id : Int) : Bool × DB :=
  (db.tasks.any (fun t => t.id == task_id),
   { db with tasks := db.tasks.filter (fun t => !(t.id == task_id)) })

/-- Externally visible effects of a write handler, in execution order. -/
inductive Effect
  | persistTaskCreate (id : Int)
  | persistTaskUpdate (id : Int)
  | persistTaskDelete (id : Int)
  | persistCommentCreate (id : Int)
  | persistCommentDelete (id : Int)
  | invalidateList
  | invalidateDetail (id : Int)
  | broadcastTask (kind : String)
  | broadcastComment (kind : String)
deriving DecidableEq

/-- HTTP-level classification of a handler's response. -/
inductive Outcome
  | ok | created | unauthenticated | forbidden | notFound | badRequest
  | noFields | validationFailed | updateFailed | serverError
  | loggedOut | alreadyLoggedOut
deriving DecidableEq

/-- The HTTP status code each outcome is returned with. -/
def statusCode : Outcome → Nat
  | .ok | .loggedOut | .alreadyLoggedOut => 200
  | .created => 201
  | .badRequest | .noFields | .validationFailed | .updateFailed => 400
  | .unauthenticated => 401
  | .forbidden => 403
  | .notFound => 404
  | .serverError => 500

/-- Outcome, database after the request, effects in execution order. -/
structure HandlerResult where
  outcome : Outcome
  db : DB
  effects : List Effect
deriving DecidableEq

/-- Python `str.split()`: split on whitespace runs, dropping empty pieces. -/
def splitWs (s : String) : List String := splitWsAux s.data []

/-- The check of the `token_required` decorator (`app.py`): the header must
have exactly two whitespace-separated parts, the first being `bearer`
case-insensitively; yields the token part. -/
def parseBearer (h : String) : Option String :=
  match splitWs h with
  | [p0, p1] => if strToLower p0 == "bearer" then some p1 else none
  | _ => none

/-- `app.resolve_current_user()`: returns (user, error outcome, database after
the call).  `(none, none, _)` is the anonymous-guest case (header not starting
with `"Bearer "`). -/
def resolve_current_user (db : DB) (now : Nat) (h : String) :
    Option UserRow × Option Outcome × DB :=
  if !(strStartsWith h "Bearer ") then (none, none, db)
  else
    let token := strTrim (strDrop h 7)
    if token == "" then (none, some .unauthenticated, db)
    else
      match get_user_by_access_token db token now with
      | (none, db') => (none, some .unauthenticated, db')
      | (some u, db') => (some u, none, db')

/-- `app.update_task` (`PUT /api/tasks/<id>`), including its `token_required`
wrapper and the `resolve_current_user` call the handler re-does itself. -/
def update_task_route (db : DB) (now : Nat) (h : String) (task_id : Int)
    (body : Option TaskBody) : HandlerResult :=
  match parseBearer h with
  | none => ⟨.unauthenticated, db, []⟩
  | some tok =>
    match get_user_by_token db tok now with
    | none => ⟨.unauthenticated, db, []⟩
    | some _ =>
      match resolve_current_user db now h with
      | (_, some _, db1) => ⟨.unauthenticated, db1, []⟩
      | (none, none, db1) => ⟨.serverError, db1, []⟩
      | (some cu, none, db1) =>
        let data := body.getD {}
        if data.isEmpty then ⟨.badRequest, db1, []⟩
        else
          match get_task_by_id db1 task_id with
          | none => ⟨.notFound, db1, []⟩
          | some task =>
            if cu.role == "user" then ⟨.forbidden, db1, []⟩
            else if cu.role == "admin" && task.row.author_id != cu.id then ⟨.forbidden, db1, []⟩
            else
              let f := data.filteredFields
              if f.isEmpty then ⟨.noFields, db1, []⟩
              else if !(validate_task_data (f.title.bind id) none (f.status.bind id)
                  (f.priority.bind id) (f.due_date.bind id) false == []) then
                ⟨.validationFailed, db1, []⟩
              else
                match db_update_task db1 task_id f now with
                | (ran, ok, db2) =>
                  let e1 := if ran then [Effect.persistTaskUpdate task_id] else []
                  if !ok then ⟨.updateFailed, db2, e1⟩
                  else ⟨.ok, db2,
                    e1 ++ [.invalidateList, .invalidateDetail task_id, .broadcastTask "updated"]⟩

/-- `app.delete_task` (`DELETE /api/tasks/<id>`). -/
def delete_task_route (db : DB) (now : Nat) (h : String) (task_id : Int) : HandlerResult :=
  match parseBearer h with
  | none => ⟨.unauthenticated, db, []⟩
  | some tok =>
    match get_user_by_token db tok now with
    | none => ⟨.unauthenticated, db, []⟩
    | some _ =>
      match resolve_current_user db now h with
      | (_, some _, db1) => ⟨.unauthenticated, db1, []⟩
      | (none, none, db1) => ⟨.serverError, db1, []⟩
      | (some cu, none, db1) =>
        match get_task_by_id db1 task_id with
        | none => ⟨.notFound, db1, []⟩
        | some task =>
          if cu.role == "user" then ⟨.forbidden, db1, []⟩
          else if cu.role == "admin" && task.row.author_id != cu.id then ⟨.forbidden, db1, []⟩
          else
            match db_delete_task db1 task_id with
            | (affected, db2) =>
              if affected then
                ⟨.ok, db2, [.persistTaskDelete task_id, .invalidateList,
                  .invalidateDetail task_id, .broadcastTask "deleted"]⟩
              else ⟨.ok, db2, []⟩

/-- `app.create_task` (`POST /api/tasks`). -/
def create_task_route (db : DB) (now : Nat) (h : String) (body : Option TaskBody) :
    HandlerResult :=
  match parseBearer h with
  | none => ⟨.unauthenticated, db, []⟩
  | some tok =>
    match get_user_by_token db tok now with
    | none => ⟨.unauthenticated, db, []⟩
    | some u =>
      if !(u.role == "admin" || u.role == "super_admin") then ⟨.forbidden, db, []⟩
      else
        match body with
        | none => ⟨.badRequest, db, []⟩
        | some d =>
          if !(validate_task_data (d.title.bind id) (d.author_id.bind id) (d.status.bind id)
              (d.priority.bind id) (d.due_date.bind id) true == []) then
            ⟨.validationFailed, db, []⟩
          else
            match d.author_id.bind id with
            | none => ⟨.badRequest, db, []⟩
            | some author =>
              let title := strTrim ((d.title.bind id).getD "")
              let descr := strTrim ((d.description.bind id).getD "")
              let executor := match d.executor_id.bind id with
                | some e => if e != 0 then e else author
                | none => author
              let status := match d.status.bind id with
                | some s => if !(s == "") then s else "к выполнению"
                | none => "к выполнению"
              let priority := match d.priority.bind id with
                | some p => if !(p == "") then p else "средний"
                | none => "средний"
              match db_create_task db title descr author executor status priority
                  (d.due_date.bind id) now with
              | (tid, db2) =>
                match get_task_by_id db2 tid with
                | none => ⟨.serverError, db2, [.persistTaskCreate tid, .broadcastTask "created"]⟩
                | some _ => ⟨.created, db2,
                    [.persistTaskCreate tid, .broadcastTask "created",
                     .invalidateList, .invalidateDetail tid]⟩

/-- `app.logout` (`POST /auth/logout`).  `token_required` assigns only
`g.current_user`; `g.current_token` is never assigned on this path, so the
handler reads `getattr(g, "current_token", None) = None`. -/
def logout_route (db : DB) (now : Nat) (h : String) : HandlerResult :=
  match parseBearer h with
  | none => ⟨.unauthenticated, db, []⟩
  | some tok =>
    match get_user_by_token db tok now with
    | none => ⟨.unauthenticated, db, []⟩
    | some _ =>
      let current_token : Option String := none
      match current_token with
      | none => ⟨.alreadyLoggedOut, db, []⟩
      | some t =>
        match delete_access_token db t with
        | (_, db2) => ⟨.loggedOut, db2, []⟩

/-- A JSON body for `POST /api/tasks/<id>/comments`: presence of `text` and
`author_id`. -/
structure CommentBody where
  text : Option String := none
  author_id : Option Int := none
deriving DecidableEq

/-- `app.add_comment_to_task` (`POST /api/tasks/<id>/comments`).  The route has
no authentication wrapper: it never reads the `Authorization` header. -/
def add_comment_route (db : DB) (task_id : Int) (body : Option CommentBody) : HandlerResult :=
  match body with
  | none => ⟨.badRequest, db, []⟩
  | some d =>
    match d.text with
    | none => ⟨.badRequest, db, []⟩
    | some rawText =>
      match d.author_id with
      | none => ⟨.badRequest, db, []⟩
      | some author =>
        let text := strTrim rawText
        if text == "" then ⟨.badRequest, db, []⟩
        else
          match get_task_by_id db task_id with
          | none => ⟨.notFound, db, []⟩
          | some _ =>
            let cid := db.next_comment_id
            let db2 := { db with
              comments := db.comments ++ [⟨cid, task_id, author, text⟩]
              next_comment_id := cid + 1 }
            ⟨.created, db2, [.persistCommentCreate cid, .broadcastComment "created"]⟩

/-- `app.delete_comment` (`DELETE /api/comments/<id>`).  Also unauthenticated:
no wrapper, no header read. -/
def delete_comment_route (db : DB) (comment_id : Int) : HandlerResult :=
  match db.comments.find? (fun c => c.id == comment_id) with
  | none => ⟨.notFound, db, []⟩
  | some _ =>
    let db2 := { db with comments := db.comments.filter (fun c => !(c.id == comment_id)) }
    ⟨.ok, db2, [.persistCommentDelete comment_id, .broadcastComment "deleted"]⟩

/-- Lexicographic code-point comparison of strings, the order SQLite's default
BINARY collation gives `TEXT` values (and Python gives `str`). -/
def strLeAux : List Char → List Char → Bool
  | [], _ => true
  | _ :: _, [] => false
  | a :: as, b :: bs =>
    if a.val < b.val then true else if b.val < a.val then false else strLeAux as bs

/-- `a <= b` on SQLite `TEXT` / Python `str`. -/
def strLe (a b : String) : Bool := strLeAux a.data b.data

/-- The query filters `app.get_tasks` collects from the request arguments. -/
structure Filters where
  status : Option String := none
  priority : Option String := none
  author_id : Option Int := none
  executor_id : Option Int := none
  due_date_before : Option String := none
  due_date_after : Option String := none
deriving DecidableEq

/-- The `WHERE` clause built by `database.get_all_tasks`: one `AND`ed condition
per present filter.  SQL three-valued logic makes comparisons with a `NULL`
`due_date` fail, excluding such rows whenever a due-date filter is present. -/
def taskMatches (f : Filters) (t : TaskRow) : Bool :=
  (match f.status with | some s => t.status == s | none => true)
  && (match f.priority with | some p => t.priority == p | none => true)
  && (match f.author_id with | some a => t.author_id == a | none => true)
  && (match f.executor_id with | some e => t.executor_id == some e | none => true)
  && (match f.due_date_before with
      | some d => (match t.due_date with | some td => strLe td d | none => false)
      | none => true)
  && (match f.due_date_after with
      | some d => (match t.due_date with | some td => strLe d td | none => false)
      | none => true)

/-- Insertion step of `ORDER BY t.created_at DESC`. -/
def insertByCreatedDesc (t : TaskRow) : List TaskRow → List TaskRow
  | [] => [t]
  | x :: xs => if x.created_at ≤ t.created_at then t :: x :: xs else x :: insertByCreatedDesc t xs

/-- `ORDER BY t.created_at DESC` as an insertion sort. -/
def sortByCreatedDesc : List TaskRow → List TaskRow
  | [] => []
  | x :: xs => insertByCreatedDesc x (sortByCreatedDesc xs)

/-- `database.get_all_tasks(filters, limit, offset)`: filter, order by creation
time descending, apply `LIMIT ? OFFSET ?`, and enrich with display names. -/
def get_all_tasks (db : DB) (f : Filters) (limit offset : Nat) : List TaskView :=
  (((sortByCreatedDesc (db.tasks.filter (taskMatches f))).drop offset).take limit).map
    (enrichTask db)

/-- Rendering of one optional string filter into the cache key. -/
def renderOptS (name : String) (v : Option String) : String :=
  match v with | some s => name ++ "=" ++ s ++ ";" | none => ""

/-- Rendering of one optional integer filter into the cache key. -/
def renderOptI (name : String) (v : Option Int) : String :=
  match v with | some i => name ++ "=" ++ toString i ++ ";" | none => ""

/-- `cache.make_task_list_cache_key(filters, page, limit)`: a deterministic
string from the sorted filter items plus page and limit (keys rendered in
sorted order: author_id, due_date_after, due_date_before, executor_id,
priority, status). -/
def make_task_list_cache_key (f : Filters) (page limit : Nat) : String :=
  renderOptI "author_id" f.author_id
    ++ renderOptS "due_date_after" f.due_date_after
    ++ renderOptS "due_date_before" f.due_date_before
    ++ renderOptI "executor_id" f.executor_id
    ++ renderOptS "priority" f.priority
    ++ renderOptS "status" f.status
    ++ "|page=" ++ toString page ++ "|limit=" ++ toString limit

/-- Response of `GET /api/tasks` plus the list-cache slot after the request. -/
structure TasksResult where
  count : Nat
  tasks : List TaskView
  fromCache : Bool
  cache : ListCache
deriving DecidableEq

/-- `app.get_tasks` (`GET /api/tasks`): consult the list cache; on miss query
the database (`offset = (page - 1) * limit`), cache `{"count": len(tasks),
"tasks": tasks}` and answer with the same `count`. -/
def get_tasks_route (db : DB) (lc : ListCache) (now : Nat) (f : Filters)
    (page limit : Nat) : TasksResult :=
  let offset := (page - 1) * limit
  let key := make_task_list_cache_key f page limit
  match get_cached_task_list lc key now with
  | (some cached, lc1) => ⟨cached.count, cached.tasks, true, lc1⟩
  | (none, lc1) =>
    let tasks := get_all_tasks db f limit offset
    ⟨tasks.length, tasks, false, set_cached_task_list lc1 key ⟨tasks.length, tasks⟩ now⟩

/-- The token extraction of `resolve_current_user`, in isolation: header must
start with `"Bearer "` and the remainder must be nonempty after stripping. -/
def resolveBearerToken (h : String) : Option String :=
  if !(strStartsWith h "Bearer ") then none
  else
    let t := strTrim (strDrop h 7)
    if t == "" then none else some t

/-- The §4.2 authorization rule for `task.update`/`task.delete`, written from
the spec's words: deny for role `user`; for `admin` allow iff the actor's id
equals the task's `author_id`; allow for `super_admin`. -/
def specTaskMutationAllowed (role : String) (actorId authorId : Int) : Bool :=
  if role == "user" then false
  else if role == "admin" then actorId == authorId
  else true

/-- Is the effect a broadcast emission? -/
def isBroadcast : Effect → Bool
  | .broadcastTask _ => true
  | .broadcastComment _ => true
  | _ => false

/-- Is the effect the list-slot invalidation? -/
def isInvalidateList : Effect → Bool
  | .invalidateList => true
  | _ => false

/-- Is the effect a detail-entry invalidation? -/
def isInvalidateDetail : Effect → Bool
  | .invalidateDetail _ => true
  | _ => false

/-- The ordering property the spec demands of a write trace: either there is
no broadcast, or before the first broadcast both the list slot and a detail
entry have been invalidated. -/
def invalidationBeforeBroadcast (es : List Effect) : Bool :=
  ((es.takeWhile (fun e => !(isBroadcast e))).any isInvalidateList
      && (es.takeWhile (fun e => !(isBroadcast e))).any isInvalidateDetail)
    || !(es.any isBroadcast)

theorem find?_weaken {α : Type} (l : List α) (q c : α → Bool) (r : α)
    (huniq : l.Pairwise (fun a b => q a → ¬ q b))
    (h : l.find? (fun x => q x && c x) = some r) :
    l.find? q = some r := by
  induction l with
  | nil => simp at h
  | cons x xs ih =>
    rcases List.pairwise_cons.1 huniq with ⟨hx, hxs⟩
    by_cases hq : q x
    · rw [List.find?_cons_of_pos _ hq]
      by_cases hc : c x
      · rw [List.find?_cons_of_pos] at h
        · exact h
        · simp [hq, hc]
      · rw [List.find?_cons_of_neg] at h
        · exfalso
          have hr := List.find?_some h
          have hmem := List.mem_of_find?_eq_some h
          simp only [Bool.and_eq_true] at hr
          exact hx r hmem hq hr.1
        · simp [hc]
    · rw [List.find?_cons_of_neg _ (by simp [hq])]
      rw [List.find?_cons_of_neg] at h
      · exact ih hxs h
      · simp [hq]

theorem token_find_unique (db : DB) (tok : String) (c : TokenRow → Bool) (r : TokenRow)
    (huniq : tokensUnique db)
    (h : db.auth_tokens.find? (fun x => x.token == tok && c x) = some r) :
    db.auth_tokens.find? (fun x => x.token == tok) = some r := by
  apply find?_weaken _ _ c r _ h
  apply List.Pairwise.imp _ huniq
  intro a b hab ha hb
  exact hab ((beq_iff_eq.1 ha).trans (beq_iff_eq.1 hb).symm)

/-- C1, part 1 helper: a successful `get_user_by_token` exhibits the token row. -/
theorem get_user_by_token_some (db : DB) (t : String) (now : Nat) (u : UserRow)
    (h : get_user_by_token db t now = some u) :
    ∃ r, db.auth_tokens.find? (fun x => x.token == t && decide (now < x.expires_at)) = some r
      ∧ db.users.find? (fun x => x.id == r.user_id) = some u := by
  unfold get_user_by_token at h
  rcases hfind : db.auth_tokens.find? (fun x => x.token == t && decide (now < x.expires_at)) with _ | r
  · rw [hfind] at h; exact absurd h (by simp)
  · rw [hfind] at h; exact ⟨r, hfind, h⟩

/-- C1: rotation preserves the session owner while invalidating the
predecessor.  If `t` resolves to user `u` at time `now` and the freshly drawn
replacement value `ntok` does not collide with any stored token, then
`refresh_token` succeeds, after it `t` no longer resolves, and `ntok` resolves
to the same user `u`.  Conversely if no live row for `t` exists (absent or
expired), `refresh_token` returns `None` and the database is untouched. -/
theorem rotation_preserves_owner (db : DB) (t : String) (now : Nat) (ntok : String)
    (u : UserRow) :
    (get_user_by_token db t now = some u →
      (∀ r ∈ db.auth_tokens, r.token ≠ ntok) →
      ∃ db', refresh_token db t now ntok = some (ntok, db')
        ∧ get_user_by_token db' t now = none
        ∧ get_user_by_token db' ntok now = some u)
    ∧ ((∀ r ∈ db.auth_tokens, r.token = t → r.expires_at ≤ now) →
      refresh_token db t now ntok = none) := by
  constructor
  · intro h hfresh
    obtain ⟨r, hfind, huser⟩ := get_user_by_token_some db t now u h
    have hrmem := List.mem_of_find?_eq_some hfind
    have hrprop := List.find?_some hfind
    simp only [Bool.and_eq_true, beq_iff_eq, decide_eq_true_eq] at hrprop
    have htne : t ≠ ntok := hrprop.1 ▸ hfresh r hrmem
    refine ⟨_, by unfold refresh_token; rw [hfind], ?_, ?_⟩
    · unfold get_user_by_token
      rw [List.find?_eq_none.2]
      intro x hx
      simp only [List.mem_append, List.mem_filter, List.mem_singleton] at hx
      rcases hx with ⟨_, hxt⟩ | hxnew
      · simp only [Bool.not_eq_true'] at hxt
        simp [hxt]
      · subst hxnew
        simp [htne.symm]
    · unfold get_user_by_token
      have hnone : (db.auth_tokens.filter (fun x => !(x.token == t))).find?
          (fun r => r.token == ntok && decide (now < r.expires_at)) = none := by
        refine List.find?_eq_none.2 (fun x hx => ?_)
        have hxmem := List.mem_of_mem_filter hx
        simp [hfresh x hxmem]
      rw [List.find?_append, hnone, Option.none_or]
      rw [List.find?_cons_of_pos _ (by simp [REFRESH_EXPIRES_IN_DEFAULT, hrprop.2])]
      simpa using huser
  · intro hdead
    unfold refresh_token
    rw [List.find?_eq_none.2]
    intro x hx
    simp only [Bool.and_eq_true, beq_iff_eq, decide_eq_true_eq, not_and]
    intro hxt
    have := hdead x hx hxt
    omega

/-- Witness for `rotation_preserves_owner`: rotating the live admin token in
`sampleDB` at time 100 succeeds and rebinds the session, and a dead token
value is refused. -/
theorem rotation_preserves_owner_witness :
    (∃ db', refresh_token sampleDB "tokA" 100 "fresh1" = some ("fresh1", db')
      ∧ get_user_by_token db' "tokA" 100 = none
      ∧ get_user_by_token db' "fresh1" 100 = some ⟨2, "admin@mail.ru", "Администратор", "h2", "admin", 0⟩)
    ∧ refresh_token sampleDB "dead" 100 "fresh2" = none := by
  constructor
  · exact (rotation_preserves_owner sampleDB "tokA" 100 "fresh1" _).1
      (by decide) (by decide)
  · exact (rotation_preserves_owner sampleDB "dead" 100 "fresh2"
      ⟨2, "admin@mail.ru", "Администратор", "h2", "admin", 0⟩).2 (by decide)

theorem detail_find_after_set (c : DetailCache) (tid : Int) (e : DetailEntry) :
    (c.filter (fun q => !(q.1 == tid)) ++ [(tid, e)]).find? (fun p => p.1 == tid)
      = some (tid, e) := by
  have hnone : (c.filter (fun q => !(q.1 == tid))).find? (fun p => p.1 == tid) = none := by
    refine List.find?_eq_none.2 (fun x hx => ?_)
    have := List.of_mem_filter hx
    simpa using this
  rw [List.find?_append, hnone, Option.none_or, List.find?_cons_of_pos _ (by simp)]

/-- C7: cache TTL semantics for both the list slot and the detail map.  An
entry stored at time `T` is returned by a `get` of the same key strictly
before `T + TASK_CACHE_TTL`; strictly after that deadline the `get` misses and
evicts the stale entry for that key. -/
theorem cache_ttl_semantics (lc : ListCache) (dc : DetailCache) (k : String)
    (v : TaskListData) (tid : Int) (tv : TaskView) (T now : Nat) :
    (now < T + TASK_CACHE_TTL →
      get_cached_task_list (set_cached_task_list lc k v T) k now
        = (some v, set_cached_task_list lc k v T)
      ∧ get_cached_task_detail (set_cached_task_detail dc tid tv T) tid now
        = (some tv, set_cached_task_detail dc tid tv T))
    ∧ (T + TASK_CACHE_TTL < now →
      get_cached_task_list (set_cached_task_list lc k v T) k now = (none, emptyListCache)
      ∧ get_cached_task_detail (set_cached_task_detail dc tid tv T) tid now
        = (none, invalidate_task_detail (set_cached_task_detail dc tid tv T) tid)) := by
  constructor
  · intro hlt
    constructor
    · unfold get_cached_task_list set_cached_task_list
      simp only
      rw [if_neg (by simp), if_neg (by omega)]
    · unfold get_cached_task_detail set_cached_task_detail
      rw [detail_find_after_set]
      simp only
      rw [if_neg (by omega)]
  · intro hgt
    constructor
    · unfold get_cached_task_list set_cached_task_list
      simp only
      rw [if_neg (by simp), if_pos (by omega)]
    · unfold get_cached_task_detail set_cached_task_detail invalidate_task_detail
      rw [detail_find_after_set]
      simp only
      rw [if_pos (by omega)]

/-- Witness for `cache_ttl_semantics`: a concrete entry stored at `T = 10`
is a hit at `now = 100` and a guaranteed miss (with eviction) at `now = 400`. -/
theorem cache_ttl_semantics_witness :
    (get_cached_task_list (set_cached_task_list emptyListCache "k" ⟨0, []⟩ 10) "k" 100
      = (some ⟨0, []⟩, set_cached_task_list emptyListCache "k" ⟨0, []⟩ 10))
    ∧ (get_cached_task_list (set_cached_task_list emptyListCache "k" ⟨0, []⟩ 10) "k" 400
      = (none, emptyListCache)) := by
  refine ⟨((cache_ttl_semantics emptyListCache [] "k" ⟨0, []⟩ 0
    ⟨⟨1, "t", none, "к выполнению", "средний", none, 1, none, 0, 0⟩, none, none⟩ 10 100).1
    (by decide)).1, ((cache_ttl_semantics emptyListCache [] "k" ⟨0, []⟩ 0
    ⟨⟨1, "t", none, "к выполнению", "средний", none, 1, none, 0, 0⟩, none, none⟩ 10 400).2
    (by decide)).1⟩

/-- C8: the task-list cache is a single slot.  After storing under `k1` and
then under a different key `k2`, a get of `k2` (within its TTL) hits while a
get of `k1` misses (at any time, without eviction); and a put under the same
key unconditionally replaces the value and sets a fresh expiry. -/
theorem list_cache_single_slot (lc : ListCache) (k1 k2 : String)
    (v1 v2 : TaskListData) (t1 t2 now now2 : Nat) :
    (k1 ≠ k2 →
      (now ≤ t2 + TASK_CACHE_TTL →
        get_cached_task_list (set_cached_task_list (set_cached_task_list lc k1 v1 t1) k2 v2 t2) k2 now
          = (some v2, set_cached_task_list (set_cached_task_list lc k1 v1 t1) k2 v2 t2))
      ∧ get_cached_task_list (set_cached_task_list (set_cached_task_list lc k1 v1 t1) k2 v2 t2) k1 now2
          = (none, set_cached_task_list (set_cached_task_list lc k1 v1 t1) k2 v2 t2))
    ∧ set_cached_task_list (set_cached_task_list lc k1 v1 t1) k1 v2 t2
        = ⟨some k1, some v2, t2 + TASK_CACHE_TTL⟩ := by
  refine ⟨fun hne => ⟨fun hnow => ?_, ?_⟩, rfl⟩
  · unfold get_cached_task_list set_cached_task_list
    simp only
    rw [if_neg (by simp), if_neg (by omega)]
  · unfold get_cached_task_list set_cached_task_list
    simp only
    rw [if_pos (by simp [Ne.symm hne])]

/-- Witness for `list_cache_single_slot` at concrete keys and times. -/
theorem list_cache_single_slot_witness :
    get_cached_task_list (set_cached_task_list (set_cached_task_list emptyListCache "a" ⟨1, []⟩ 0) "b" ⟨2, []⟩ 5) "b" 50
      = (some ⟨2, []⟩, set_cached_task_list (set_cached_task_list emptyListCache "a" ⟨1, []⟩ 0) "b" ⟨2, []⟩ 5)
    ∧ get_cached_task_list (set_cached_task_list (set_cached_task_list emptyListCache "a" ⟨1, []⟩ 0) "b" ⟨2, []⟩ 5) "a" 50
      = (none, set_cached_task_list (set_cached_task_list emptyListCache "a" ⟨1, []⟩ 0) "b" ⟨2, []⟩ 5) := by
  have h := list_cache_single_slot emptyListCache "a" "b" ⟨1, []⟩ ⟨2, []⟩ 0 5 50 50
  exact ⟨(h.1 (by decide)).1 (by decide), (h.1 (by decide)).2⟩

theorem length_insertByCreatedDesc (t : TaskRow) (l : List TaskRow) :
    (insertByCreatedDesc t l).length = l.length + 1 := by
  induction l with
  | nil => rfl
  | cons x xs ih => unfold insertByCreatedDesc; split <;> simp [ih]

theorem length_sortByCreatedDesc (l : List TaskRow) :
    (sortByCreatedDesc l).length = l.length := by
  induction l with
  | nil => rfl
  | cons x xs ih => unfold sortByCreatedDesc; rw [length_insertByCreatedDesc, ih]; rfl

/-- C2 (code bug): logging out with a live token does not delete its row.
`token_required` assigns only `g.current_user`, never `g.current_token`, so
`app.logout` reads `None` and answers 200 ("already logged out") without
calling `delete_access_token`; the presented token still resolves afterwards. -/
theorem logout_does_not_revoke :
    (logout_route sampleDB 100 "Bearer tokA").outcome = Outcome.alreadyLoggedOut
    ∧ statusCode (logout_route sampleDB 100 "Bearer tokA").outcome = 200
    ∧ (logout_route sampleDB 100 "Bearer tokA").db = sampleDB
    ∧ get_user_by_token (logout_route sampleDB 100 "Bearer tokA").db "tokA" 100
        = some ⟨2, "admin@mail.ru", "Администратор", "h2", "admin", 0⟩ := by
  decide

/-- C3 (code bug): the comment mutation routes perform no authentication at
all: an anonymous `POST /api/tasks/1/comments` creates a comment and an
anonymous `DELETE /api/comments/1` deletes one. -/
theorem anonymous_comment_mutations_allowed :
    ((add_comment_route sampleDB 1 (some ⟨some "Привет", some 3⟩)).outcome = Outcome.created
      ∧ (add_comment_route sampleDB 1 (some ⟨some "Привет", some 3⟩)).db.comments.length
          = sampleDB.comments.length + 1)
    ∧ ((delete_comment_route sampleDB 1).outcome = Outcome.ok
      ∧ (delete_comment_route sampleDB 1).db.comments = []) := by
  decide

/-- C5 counterexample: rotating a live token at time 100 stores an expiry of
`100 + 3600`, not `100 + TOKEN_TTL_MINUTES * 60 = 100 + 7200` as the claim
states. -/
theorem refresh_window_counterexample :
    (refresh_token sampleDB "tokA" 100 "fresh1").map
        (fun p => p.2.auth_tokens.map (fun r => (r.token, r.expires_at)))
      = some [("tokS", 7200), ("tokU", 7200), ("fresh1", 3700)]
    ∧ ¬ ((3700 : Nat) = 100 + TOKEN_TTL_MINUTES * 60) := by
  decide

/-- C5 amended: every successful rotation grants a full fresh window of
`REFRESH_EXPIRES_IN_DEFAULT = 3600` seconds from the rotation time —
independent of the old deadline, but shorter than the 120-minute login TTL. -/
theorem refresh_grants_fresh_3600_window (db : DB) (t : String) (now : Nat)
    (ntok : String) (p : String × DB)
    (h : refresh_token db t now ntok = some p) :
    p.1 = ntok
    ∧ (∃ uid, p.2.auth_tokens
        = db.auth_tokens.filter (fun x => !(x.token == t))
            ++ [⟨ntok, uid, now + REFRESH_EXPIRES_IN_DEFAULT⟩])
    ∧ REFRESH_EXPIRES_IN_DEFAULT = 3600
    ∧ REFRESH_EXPIRES_IN_DEFAULT < TOKEN_TTL_MINUTES * 60 := by
  unfold refresh_token at h
  rcases hfind : db.auth_tokens.find?
      (fun r => r.token == t && decide (now < r.expires_at)) with _ | r
  · rw [hfind] at h; exact absurd h (by simp)
  · rw [hfind] at h
    injection h with hp
    subst hp
    exact ⟨rfl, ⟨r.user_id, rfl⟩, rfl, by decide⟩

/-- Witness for `refresh_grants_fresh_3600_window` on a concrete rotation. -/
theorem refresh_grants_fresh_3600_window_witness :
    ∃ p, refresh_token sampleDB "tokA" 100 "fresh1" = some p
      ∧ (p.1 = "fresh1"
        ∧ (∃ uid, p.2.auth_tokens
            = sampleDB.auth_tokens.filter (fun x => !(x.token == "tokA"))
                ++ [⟨"fresh1", uid, 100 + REFRESH_EXPIRES_IN_DEFAULT⟩])
        ∧ REFRESH_EXPIRES_IN_DEFAULT = 3600
        ∧ REFRESH_EXPIRES_IN_DEFAULT < TOKEN_TTL_MINUTES * 60) := by
  refine ⟨("fresh1", { sampleDB with auth_tokens :=
      [⟨"tokS", 1, 7200⟩, ⟨"tokU", 3, 7200⟩, ⟨"fresh1", 2, 3700⟩] }), by decide, ?_⟩
  exact refresh_grants_fresh_3600_window sampleDB "tokA" 100 "fresh1" _ (by decide)

theorem access_token_of_token (db : DB) (tok : String) (now : Nat) (u : UserRow)
    (huniq : tokensUnique db) (hu : get_user_by_token db tok now = some u) :
    get_user_by_access_token db tok now = (some u, db) := by
  obtain ⟨r, hfind, huser⟩ := get_user_by_token_some db tok now u hu
  have hplain := token_find_unique db tok _ r huniq hfind
  have hexp : now < r.expires_at := by
    have := List.find?_some hfind
    simp only [Bool.and_eq_true, decide_eq_true_eq] at this
    exact this.2
  unfold get_user_by_access_token
  simp only [hplain, huser]
  rw [if_neg (by omega)]

theorem resolveBearerToken_some (h : String) (tok : String)
    (hr : resolveBearerToken h = some tok) :
    strStartsWith h "Bearer " = true ∧ strTrim (strDrop h 7) = tok
      ∧ (tok == "") = false := by
  unfold resolveBearerToken at hr
  by_cases h1 : strStartsWith h "Bearer "
  · rw [if_neg (by simp [h1])] at hr
    by_cases h2 : strTrim (strDrop h 7) == ""
    · rw [if_pos h2] at hr; exact absurd hr (by simp)
    · rw [if_neg h2] at hr
      have := (Option.some.inj hr)
      exact ⟨h1, this, by rw [← this]; simpa using h2⟩
  · rw [if_pos (by simp [h1])] at hr
    exact absurd hr (by simp)

theorem resolve_current_user_of_valid (db : DB) (now : Nat) (h : String) (tok : String)
    (u : UserRow) (hr : resolveBearerToken h = some tok)
    (huniq : tokensUnique db) (hu : get_user_by_token db tok now = some u) :
    resolve_current_user db now h = (some u, none, db) := by
  obtain ⟨h1, h2, h3⟩ := resolveBearerToken_some h tok hr
  unfold resolve_current_user
  rw [if_neg (by simp [h1])]
  simp only [h2, h3, Bool.false_eq_true, if_false,
    access_token_of_token db tok now u huniq hu]

/-- Reduction of `update_task_route` past the authentication layers, for a
request carrying a well-formed header whose token resolves. -/
theorem update_task_route_auth (db : DB) (now : Nat) (h : String) (tok : String)
    (u : UserRow) (task_id : Int) (body : Option TaskBody)
    (hb : parseBearer h = some tok) (hr : resolveBearerToken h = some tok)
    (huniq : tokensUnique db) (hu : get_user_by_token db tok now = some u) :
    update_task_route db now h task_id body
      = (let data := body.getD {}
         if data.isEmpty then ⟨.badRequest, db, []⟩
         else
           match get_task_by_id db task_id with
           | none => ⟨.notFound, db, []⟩
           | some task =>
             if u.role == "user" then ⟨.forbidden, db, []⟩
             else if u.role == "admin" && task.row.author_id != u.id then ⟨.forbidden, db, []⟩
             else
               let f := data.filteredFields
               if f.isEmpty then ⟨.noFields, db, []⟩
               else if !(validate_task_data (f.title.bind id) none (f.status.bind id)
                   (f.priority.bind id) (f.due_date.bind id) false == []) then
                 ⟨.validationFailed, db, []⟩
               else
                 match db_update_task db task_id f now with
                 | (ran, ok, db2) =>
                   let e1 := if ran then [Effect.persistTaskUpdate task_id] else []
                   if !ok then ⟨.updateFailed, db2, e1⟩
                   else ⟨.ok, db2,
                     e1 ++ [.invalidateList, .invalidateDetail task_id,
                       .broadcastTask "updated"]⟩) := by
  unfold update_task_route
  simp only [hb, hu, resolve_current_user_of_valid db now h tok u hr huniq hu]

/-- Reduction of `delete_task_route` past the authentication layers. -/
theorem delete_task_route_auth (db : DB) (now : Nat) (h : String) (tok : String)
    (u : UserRow) (task_id : Int)
    (hb : parseBearer h = some tok) (hr : resolveBearerToken h = some tok)
    (huniq : tokensUnique db) (hu : get_user_by_token db tok now = some u) :
    delete_task_route db now h task_id
      = (match get_task_by_id db task_id with
         | none => ⟨.notFound, db, []⟩
         | some task =>
           if u.role == "user" then ⟨.forbidden, db, []⟩
           else if u.role == "admin" && task.row.author_id != u.id then ⟨.forbidden, db, []⟩
           else
             match db_delete_task db task_id with
             | (affected, db2) =>
               if affected then
                 ⟨.ok, db2, [.persistTaskDelete task_id, .invalidateList,
                   .invalidateDetail task_id, .broadcastTask "deleted"]⟩
               else ⟨.ok, db2, []⟩) := by
  unfold delete_task_route
  simp only [hb, hu, resolve_current_user_of_valid db now h tok u hr huniq hu]

/-- C10: when `GET /api/tasks` is answered from the database (cache miss), the
`count` it returns and stores into the cache is the length of the returned
page — hence at most `limit` — not the total number of matching tasks. -/
theorem tasks_count_is_page_length (db : DB) (lc : ListCache) (now : Nat)
    (f : Filters) (page limit : Nat)
    (h : (get_tasks_route db lc now f page limit).fromCache = false) :
    (get_tasks_route db lc now f page limit).count
        = (get_all_tasks db f limit ((page - 1) * limit)).length
    ∧ (get_tasks_route db lc now f page limit).count ≤ limit
    ∧ (get_tasks_route db lc now f page limit).cache.data
        = some ⟨(get_all_tasks db f limit ((page - 1) * limit)).length,
            get_all_tasks db f limit ((page - 1) * limit)⟩ := by
  have hlen : (get_all_tasks db f limit ((page - 1) * limit)).length ≤ limit := by
    unfold get_all_tasks
    rw [List.length_map, List.length_take]
    exact min_le_left _ _
  simp only [get_tasks_route] at h ⊢
  rcases hc : get_cached_task_list lc (make_task_list_cache_key f page limit) now with ⟨d, lc1⟩
  rcases d with _ | cached
  · exact ⟨rfl, hlen, rfl⟩
  · rw [hc] at h
    exact absurd h (by simp)

/-- Witness for `tasks_count_is_page_length`: an empty cache misses, and the
response count equals the page length. -/
theorem tasks_count_is_page_length_witness :
    (get_tasks_route sampleDB emptyListCache 0 {} 1 100).fromCache = false
    ∧ (get_tasks_route sampleDB emptyListCache 0 {} 1 100).count
        = (get_all_tasks sampleDB {} 100 ((1 - 1) * 100)).length
    ∧ (get_tasks_route sampleDB emptyListCache 0 {} 1 100).count ≤ 100 := by
  have hmiss : (get_tasks_route sampleDB emptyListCache 0 {} 1 100).fromCache = false := by
    decide
  have h := tasks_count_is_page_length sampleDB emptyListCache 0 {} 1 100 hmiss
  exact ⟨hmiss, h.1, h.2.1⟩

/-- C9: an authorized update request whose body survives `if not data` but
reduces to nothing under the allow-list filter is answered with the
"no fields to update" error (HTTP 400) and leaves the database — in
particular the task and its `updated_at` — untouched. -/
theorem update_empty_allowlist_noop (db : DB) (now : Nat) (h tok : String)
    (u : UserRow) (task_id : Int) (tk : TaskView) (d : TaskBody)
    (hb : parseBearer h = some tok) (hr : resolveBearerToken h = some tok)
    (huniq : tokensUnique db) (hu : get_user_by_token db tok now = some u)
    (htask : get_task_by_id db task_id = some tk)
    (hdne : d.isEmpty = false)
    (hauth : u.role = "super_admin" ∨ (u.role = "admin" ∧ tk.row.author_id = u.id))
    (hfe : d.filteredFields.isEmpty = true) :
    (update_task_route db now h task_id (some d)).outcome = Outcome.noFields
    ∧ statusCode (update_task_route db now h task_id (some d)).outcome = 400
    ∧ (update_task_route db now h task_id (some d)).db = db := by
  rw [update_task_route_auth db now h tok u task_id (some d) hb hr huniq hu]
  simp only [Option.getD_some, hdne, Bool.false_eq_true, if_false, htask]
  rcases hauth with hsa | ⟨hadm, hown⟩
  · have e1 : (("super_admin" : String) == "user") = false := by decide
    have e2 : (("super_admin" : String) == "admin") = false := by decide
    simp only [hsa, e1, e2, Bool.false_and, if_false, hfe, if_true]
    exact ⟨rfl, rfl, rfl⟩
  · have e1 : (("admin" : String) == "user") = false := by decide
    have e2 : (("admin" : String) == "admin") = true := by decide
    simp only [hadm, e1, e2, Bool.true_and, hown, bne_self_eq_false, if_false, hfe, if_true]
    exact ⟨rfl, rfl, rfl⟩

/-- Witness for `update_empty_allowlist_noop`: the admin updates their own
task with a body whose only key (`author_id`) is outside the allow-list. -/
theorem update_empty_allowlist_noop_witness :
    (update_task_route sampleDB 100 "Bearer tokA" 1
        (some { author_id := some (some 5) })).outcome = Outcome.noFields
    ∧ statusCode (update_task_route sampleDB 100 "Bearer tokA" 1
        (some { author_id := some (some 5) })).outcome = 400
    ∧ (update_task_route sampleDB 100 "Bearer tokA" 1
        (some { author_id := some (some 5) })).db = sampleDB := by
  exact update_empty_allowlist_noop sampleDB 100 "Bearer tokA" "tokA"
    ⟨2, "admin@mail.ru", "Администратор", "h2", "admin", 0⟩ 1
    ⟨⟨1, "Настроить сервер", some "desc", "в процессе", "высокий", none, 2, some 3, 10, 10⟩,
      some "Администратор", some "Иван Петров"⟩
    { author_id := some (some 5) }
    (by decide) (by decide) (by decide) (by decide) (by decide) (by decide)
    (Or.inr ⟨rfl, rfl⟩) (by decide)

theorem update_post_auth_not_forbidden (db : DB) (now : Nat) (task_id : Int) (d : TaskBody) :
    (let f := d.filteredFields
     if f.isEmpty then (⟨.noFields, db, []⟩ : HandlerResult)
     else if !(validate_task_data (f.title.bind id) none (f.status.bind id)
         (f.priority.bind id) (f.due_date.bind id) false == []) then
       ⟨.validationFailed, db, []⟩
     else
       match db_update_task db task_id f now with
       | (ran, ok, db2) =>
         let e1 := if ran then [Effect.persistTaskUpdate task_id] else []
         if !ok then ⟨.updateFailed, db2, e1⟩
         else ⟨.ok, db2,
           e1 ++ [.invalidateList, .invalidateDetail task_id,
             .broadcastTask "updated"]⟩).outcome ≠ Outcome.forbidden := by
  intro hc
  simp only at hc
  repeat' split at hc
  all_goals exact Outcome.noConfusion hc

theorem delete_post_auth_not_forbidden (db : DB) (task_id : Int) :
    (match db_delete_task db task_id with
     | (affected, db2) =>
       if affected then
         (⟨.ok, db2, [.persistTaskDelete task_id, .invalidateList,
           .invalidateDetail task_id, .broadcastTask "deleted"]⟩ : HandlerResult)
       else ⟨.ok, db2, []⟩).outcome ≠ Outcome.forbidden := by
  intro hc
  repeat' split at hc
  all_goals exact Outcome.noConfusion hc

/-- C4: for every authenticated actor and every existing task, the update and
delete handlers return `Forbidden` exactly when the spec's §4.2 matrix denies
(`user`: always; `admin`: unless the actor authored the task; `super_admin`:
never), and a denied request leaves the database unchanged. -/
theorem task_update_delete_matrix (db : DB) (now : Nat) (h tok : String)
    (u : UserRow) (task_id : Int) (tk : TaskView) (d : TaskBody)
    (hb : parseBearer h = some tok) (hr : resolveBearerToken h = some tok)
    (huniq : tokensUnique db) (hu : get_user_by_token db tok now = some u)
    (htask : get_task_by_id db task_id = some tk)
    (hdne : d.isEmpty = false)
    (hrole : u.role = "user" ∨ u.role = "admin" ∨ u.role = "super_admin") :
    ((update_task_route db now h task_id (some d)).outcome = Outcome.forbidden
      ↔ specTaskMutationAllowed u.role u.id tk.row.author_id = false)
    ∧ ((delete_task_route db now h task_id).outcome = Outcome.forbidden
      ↔ specTaskMutationAllowed u.role u.id tk.row.author_id = false)
    ∧ (specTaskMutationAllowed u.role u.id tk.row.author_id = false →
      (update_task_route db now h task_id (some d)).db = db
      ∧ (delete_task_route db now h task_id).db = db) := by
  rw [update_task_route_auth db now h tok u task_id (some d) hb hr huniq hu,
    delete_task_route_auth db now h tok u task_id hb hr huniq hu]
  simp only [Option.getD_some, hdne, Bool.false_eq_true, if_false, htask]
  rcases hrole with h1 | h1 | h1
  · have e1 : (("user" : String) == "user") = true := by decide
    simp only [h1, e1, if_true, specTaskMutationAllowed]
    exact ⟨by simp, by simp, fun _ => ⟨by trivial, by trivial⟩⟩
  · have e1 : (("admin" : String) == "user") = false := by decide
    have e2 : (("admin" : String) == "admin") = true := by decide
    simp only [h1, e1, e2, Bool.true_and, Bool.false_eq_true, if_false, if_true,
      specTaskMutationAllowed]
    by_cases hown : tk.row.author_id = u.id
    · have e3 : (tk.row.author_id != u.id) = false := by simp [hown]
      have e4 : (u.id == tk.row.author_id) = true := by simp [hown]
      simp only [e3, Bool.false_eq_true, if_false, e4]
      refine ⟨?_, ?_, fun hfalse => absurd hfalse (by simp)⟩
      · exact ⟨fun hc => absurd hc (update_post_auth_not_forbidden db now task_id d),
          fun hfalse => absurd hfalse (by simp)⟩
      · exact ⟨fun hc => absurd hc (delete_post_auth_not_forbidden db task_id),
          fun hfalse => absurd hfalse (by simp)⟩
    · have e3 : (tk.row.author_id != u.id) = true := by
        simp [bne_iff_ne]
        exact hown
      have e4 : (u.id == tk.row.author_id) = false := by
        simp only [beq_eq_false_iff_ne, ne_eq]
        exact fun hh => hown hh.symm
      simp only [e3, if_true, e4]
      exact ⟨by simp, by simp, fun _ => ⟨by trivial, by trivial⟩⟩
  · have e1 : (("super_admin" : String) == "user") = false := by decide
    have e2 : (("super_admin" : String) == "admin") = false := by decide
    simp only [h1, e1, e2, Bool.false_and, Bool.false_eq_true, if_false,
      specTaskMutationAllowed]
    refine ⟨?_, ?_, fun hfalse => absurd hfalse (by simp)⟩
    · exact ⟨fun hc => absurd hc (update_post_auth_not_forbidden db now task_id d),
        fun hfalse => absurd hfalse (by simp)⟩
    · exact ⟨fun hc => absurd hc (delete_post_auth_not_forbidden db task_id),
        fun hfalse => absurd hfalse (by simp)⟩

/-- Witness for `task_update_delete_matrix`: a role-`user` actor is denied
both mutations of the existing task 1 and the database is unchanged. -/
theorem task_update_delete_matrix_witness :
    ((update_task_route sampleDB 100 "Bearer tokU" 1
        (some { title := some (some "Задача X") })).outcome = Outcome.forbidden
      ↔ specTaskMutationAllowed "user" 3 2 = false)
    ∧ ((delete_task_route sampleDB 100 "Bearer tokU" 1).outcome = Outcome.forbidden
      ↔ specTaskMutationAllowed "user" 3 2 = false)
    ∧ (specTaskMutationAllowed "user" 3 2 = false →
      (update_task_route sampleDB 100 "Bearer tokU" 1
        (some { title := some (some "Задача X") })).db = sampleDB
      ∧ (delete_task_route sampleDB 100 "Bearer tokU" 1).db = sampleDB) := by
  exact task_update_delete_matrix sampleDB 100 "Bearer tokU" "tokU"
    ⟨3, "ivan@mail.ru", "Иван Петров", "h3", "user", 0⟩ 1
    ⟨⟨1, "Настроить сервер", some "desc", "в процессе", "высокий", none, 2, some 3, 10, 10⟩,
      some "Администратор", some "Иван Петров"⟩
    { title := some (some "Задача X") }
    (by decide) (by decide) (by decide) (by decide) (by decide) (by decide)
    (Or.inl rfl)

/-- C6 counterexample: on a successful `create_task` the broadcast is emitted
before the cache invalidation — the trace is persist, broadcast, invalidate
list, invalidate detail — so the claimed invalidate-before-broadcast order is
violated by task creation. -/
theorem create_broadcast_precedes_invalidation :
    (create_task_route sampleDB 100 "Bearer tokA"
        (some { title := some (some "Новая задача"), author_id := some (some 2) })).outcome
      = Outcome.created
    ∧ (create_task_route sampleDB 100 "Bearer tokA"
        (some { title := some (some "Новая задача"), author_id := some (some 2) })).effects
      = [Effect.persistTaskCreate 2, Effect.broadcastTask "created",
         Effect.invalidateList, Effect.invalidateDetail 2]
    ∧ invalidationBeforeBroadcast
        (create_task_route sampleDB 100 "Bearer tokA"
          (some { title := some (some "Новая задача"), author_id := some (some 2) })).effects
      = false := by
  decide

theorem find?_tasks_append_fresh (l : List TaskRow) (row : TaskRow) (tid : Int)
    (hid : row.id = tid) (hfresh : ∀ t ∈ l, t.id ≠ tid) :
    (l ++ [row]).find? (fun t => t.id == tid) = some row := by
  rw [List.find?_append, List.find?_eq_none.2, Option.none_or,
    List.find?_cons_of_pos _ (by simp [hid])]
  intro x hx
  simp [hfresh x hx]

theorem get_task_by_id_append (db : DB) (row : TaskRow) (ntid tid : Int)
    (hid : row.id = tid) (hfresh : ∀ t ∈ db.tasks, t.id ≠ tid) :
    get_task_by_id { db with tasks := db.tasks ++ [row], next_task_id := ntid } tid
      = some (enrichTask { db with tasks := db.tasks ++ [row], next_task_id := ntid } row) := by
  unfold get_task_by_id
  rw [show ({ db with tasks := db.tasks ++ [row], next_task_id := ntid } : DB).tasks
      = db.tasks ++ [row] from rfl,
    find?_tasks_append_fresh db.tasks row tid hid hfresh, Option.map_some']

/-- C6 amended: a successful task update or delete sequences its effects as
persist, invalidate list slot, invalidate detail entry, broadcast — the
invalidations precede the broadcast; a successful task create instead
sequences persist, broadcast, invalidate list, invalidate detail — the
broadcast precedes both invalidations.  In all three the persisted write comes
first and is never undone by anything later in the trace. -/
theorem write_effect_order (db : DB) (now : Nat) (h tok : String) (u : UserRow)
    (task_id : Int) (tk : TaskView) (d c : TaskBody) (a : Int)
    (hb : parseBearer h = some tok) (hr : resolveBearerToken h = some tok)
    (huniq : tokensUnique db) (hu : get_user_by_token db tok now = some u)
    (htask : get_task_by_id db task_id = some tk)
    (hdne : d.isEmpty = false)
    (hauth : u.role = "super_admin" ∨ (u.role = "admin" ∧ tk.row.author_id = u.id))
    (hfne : d.filteredFields.isEmpty = false)
    (hval : validate_task_data (d.filteredFields.title.bind id) none
      (d.filteredFields.status.bind id) (d.filteredFields.priority.bind id)
      (d.filteredFields.due_date.bind id) false = [])
    (heff : (d.filteredFields.effectiveCount == 0) = false)
    (hcval : validate_task_data (c.title.bind id) (c.author_id.bind id)
      (c.status.bind id) (c.priority.bind id) (c.due_date.bind id) true = [])
    (hca : c.author_id.bind id = some a)
    (hfresh : ∀ t ∈ db.tasks, t.id ≠ db.next_task_id) :
    ((update_task_route db now h task_id (some d)).outcome = Outcome.ok
      ∧ (update_task_route db now h task_id (some d)).effects
        = [Effect.persistTaskUpdate task_id, Effect.invalidateList,
           Effect.invalidateDetail task_id, Effect.broadcastTask "updated"]
      ∧ invalidationBeforeBroadcast
          (update_task_route db now h task_id (some d)).effects = true)
    ∧ ((delete_task_route db now h task_id).outcome = Outcome.ok
      ∧ (delete_task_route db now h task_id).effects
        = [Effect.persistTaskDelete task_id, Effect.invalidateList,
           Effect.invalidateDetail task_id, Effect.broadcastTask "deleted"]
      ∧ invalidationBeforeBroadcast (delete_task_route db now h task_id).effects = true)
    ∧ ((create_task_route db now h (some c)).outcome = Outcome.created
      ∧ (create_task_route db now h (some c)).effects
        = [Effect.persistTaskCreate db.next_task_id, Effect.broadcastTask "created",
           Effect.invalidateList, Effect.invalidateDetail db.next_task_id]
      ∧ invalidationBeforeBroadcast (create_task_route db now h (some c)).effects = false) := by
  -- the task row exists, so the raw DELETE affects a row
  have hrow : ∃ row, db.tasks.find? (fun t => t.id == task_id) = some row := by
    unfold get_task_by_id at htask
    rcases hf : db.tasks.find? (fun t => t.id == task_id) with _ | row
    · rw [hf] at htask; exact absurd htask (by simp)
    · exact ⟨row, hf⟩
  obtain ⟨row, hfd⟩ := hrow
  have hrowp : (row.id == task_id) = true := by
    have hq := List.find?_some hfd
    exact hq
  have haff : db.tasks.any (fun t => t.id == task_id) = true :=
    List.any_eq_true.2 ⟨row, List.mem_of_find?_eq_some hfd, hrowp⟩
  have hv : (!(validate_task_data (d.filteredFields.title.bind id) none
      (d.filteredFields.status.bind id) (d.filteredFields.priority.bind id)
      (d.filteredFields.due_date.bind id) false == [])) = false := by
    rw [hval]; rfl
  have hcv : (!(validate_task_data (c.title.bind id) (some a)
      (c.status.bind id) (c.priority.bind id) (c.due_date.bind id) true == [])) = false := by
    rw [← hca, hcval]; rfl
  have hdu : db_update_task db task_id d.filteredFields now
      = (true, db.tasks.any (fun t => t.id == task_id),
         { db with tasks := db.tasks.map (fun t =>
             if t.id == task_id then applyTaskFields d.filteredFields t now else t) }) := by
    unfold db_update_task
    rw [if_neg (by simp [heff])]
  have hcrole : (!(u.role == "admin" || u.role == "super_admin")) = false := by
    rcases hauth with hsa | ⟨hadm, _⟩
    · rw [hsa]; decide
    · rw [hadm]; decide
  rw [update_task_route_auth db now h tok u task_id (some d) hb hr huniq hu,
    delete_task_route_auth db now h tok u task_id hb hr huniq hu]
  unfold create_task_route
  simp only [hb, hu, hcrole, Bool.false_eq_true, if_false, Option.getD_some, hdne,
    htask, hcv, hca, hfne, hv, hdu, haff, db_create_task, db_delete_task]
  rw [get_task_by_id_append db _ _ db.next_task_id rfl hfresh]
  rcases hauth with hsa | ⟨hadm, hown⟩
  · have e1 : (("super_admin" : String) == "user") = false := by decide
    have e2 : (("super_admin" : String) == "admin") = false := by decide
    simp only [hsa, e1, e2, Bool.false_and, Bool.false_eq_true, if_false, if_true]
    refine ⟨⟨by trivial, by simp, by rfl⟩, ⟨by trivial, by trivial, by rfl⟩,
      ⟨by trivial, by trivial, by rfl⟩⟩
  · have e1 : (("admin" : String) == "user") = false := by decide
    have e2 : (("admin" : String) == "admin") = true := by decide
    have e3 : (tk.row.author_id != u.id) = false := by simp [hown]
    simp only [hadm, e1, e2, e3, Bool.true_and, Bool.false_eq_true, if_false, if_true]
    refine ⟨⟨by trivial, by simp, by rfl⟩, ⟨by trivial, by trivial, by rfl⟩,
      ⟨by trivial, by trivial, by rfl⟩⟩

/-- Witness for `write_effect_order`: concrete successful update, delete and
create runs by the admin on `sampleDB`. -/
theorem write_effect_order_witness :
    ((update_task_route sampleDB 100 "Bearer tokA" 1
        (some { status := some (some "выполнена") })).outcome = Outcome.ok
      ∧ (update_task_route sampleDB 100 "Bearer tokA" 1
          (some { status := some (some "выполнена") })).effects
        = [Effect.persistTaskUpdate 1, Effect.invalidateList,
           Effect.invalidateDetail 1, Effect.broadcastTask "updated"]
      ∧ invalidationBeforeBroadcast
          (update_task_route sampleDB 100 "Bearer tokA" 1
            (some { status := some (some "выполнена") })).effects = true)
    ∧ ((delete_task_route sampleDB 100 "Bearer tokA" 1).outcome = Outcome.ok
      ∧ (delete_task_route sampleDB 100 "Bearer tokA" 1).effects
        = [Effect.persistTaskDelete 1, Effect.invalidateList,
           Effect.invalidateDetail 1, Effect.broadcastTask "deleted"]
      ∧ invalidationBeforeBroadcast
          (delete_task_route sampleDB 100 "Bearer tokA" 1).effects = true)
    ∧ ((create_task_route sampleDB 100 "Bearer tokA"
          (some { title := some (some "Новая задача"), author_id := some (some 2) })).outcome
        = Outcome.created
      ∧ (create_task_route sampleDB 100 "Bearer tokA"
          (some { title := some (some "Новая задача"), author_id := some (some 2) })).effects
        = [Effect.persistTaskCreate 2, Effect.broadcastTask "created",
           Effect.invalidateList, Effect.invalidateDetail 2]
      ∧ invalidationBeforeBroadcast
          (create_task_route sampleDB 100 "Bearer tokA"
            (some { title := some (some "Новая задача"), author_id := some (some 2) })).effects
        = false) := by
  exact write_effect_order sampleDB 100 "Bearer tokA" "tokA"
    ⟨2, "admin@mail.ru", "Администратор", "h2", "admin", 0⟩ 1
    ⟨⟨1, "Настроить сервер", some "desc", "в процессе", "высокий", none, 2, some 3, 10, 10⟩,
      some "Администратор", some "Иван Петров"⟩
    { status := some (some "выполнена") }
    { title := some (some "Новая задача"), author_id := some (some 2) } 2
    (by decide) (by decide) (by decide) (by decide) (by decide) (by decide)
    (Or.inr ⟨rfl, rfl⟩) (by decide) (by decide) (by decide) (by decide) (by decide)
    (by decide)
